import Mathlib

/-!
Verification development for the safe arithmetic-expression evaluator of
`src/app.py` (a small "Math Equation Checker" application).

Modelling conventions:

* Python `float` (IEEE binary64) values are modelled as exact rationals,
  represented by the executable normalized-fraction type `Q` below.
  Every numeric computation exercised by the theorems in this file is
  exact in binary64 (small integers, halves, tenths compared against
  tolerances far from any decision boundary), so the rational model and
  the float program agree on every stated verdict.  In the rational model
  every value is finite, so Python's `math.isfinite` test is vacuously
  true; the magnitude test `abs(result) <= 1e12` is modelled exactly.
* `ast.parse` (Python's parser, external library code not present in
  `src/`) is modelled from the spec's EBNF grammar (§4.1), extended with
  the behaviour Python's real parser has on this fragment: the keyword
  constants `True` / `False` / `None` parse to constant nodes, a bare
  identifier parses to a `Name` node, and input whose first character is
  whitespace is rejected (eval-mode `IndentationError`, a subclass of
  `SyntaxError`).
* Python's built-in `float(str)` (used as the fallback answer parser) is
  modelled for finite decimal literals with optional surrounding
  whitespace; the `inf` / `nan` spellings have no rational counterpart
  and are outside the model (no claim touches them).
* `x ** y` for `x > 0` and a non-integer rational `y` is irrational in
  general and has no rational value; the model returns the explicit
  marker `PyErr.irrationalPow` there.  In the program that case always
  flows into the same finiteness/magnitude check as every other binary
  result, so no claim below depends on its numeric value.
-/

/-- Exact rational number in lowest terms with positive denominator,
modelling a finite Python float value.  All constructors used in this
development produce normalized values (gcd of numerator and denominator
is 1, denominator positive), so structural equality coincides with
numeric equality on every value the model produces. -/
structure Q where
  num : Int
  den : Nat
deriving DecidableEq

namespace Q

/-- Build the normalized fraction `n / d` for a positive denominator `d`. -/
def mkRed (n : Int) (d : Nat) : Q :=
  let g := Nat.gcd n.natAbs d
  ⟨n / (g : Int), d / g⟩

/-- Build the normalized fraction `n / d` for any nonzero integer `d`. -/
def mkRedI (n : Int) (d : Int) : Q :=
  if d < 0 then mkRed (-n) (-d).toNat else mkRed n d.toNat

/-- Embed an integer. -/
def ofInt (n : Int) : Q := ⟨n, 1⟩

instance : OfNat Q n := ⟨ofInt n⟩

def add (a b : Q) : Q := mkRed (a.num * b.den + b.num * a.den) (a.den * b.den)

def neg (a : Q) : Q := ⟨-a.num, a.den⟩

def sub (a b : Q) : Q := add a (neg b)

def mul (a b : Q) : Q := mkRed (a.num * b.num) (a.den * b.den)

/-- Exact division (the right operand must be nonzero). -/
def div (a b : Q) : Q := mkRedI (a.num * b.den) (a.den * b.num)

/-- Absolute value. -/
def abs (a : Q) : Q := ⟨(a.num.natAbs : Int), a.den⟩

/-- Order comparison by cross-multiplication (denominators are positive). -/
def le (a b : Q) : Prop := a.num * b.den ≤ b.num * a.den

def lt (a b : Q) : Prop := a.num * b.den < b.num * a.den

instance : LE Q := ⟨le⟩
instance : LT Q := ⟨lt⟩

instance (a b : Q) : Decidable (a ≤ b) :=
  inferInstanceAs (Decidable (a.num * b.den ≤ b.num * a.den))

instance (a b : Q) : Decidable (a < b) :=
  inferInstanceAs (Decidable (a.num * b.den < b.num * a.den))

/-- Mathematical floor `⌊a⌋` (rounding toward negative infinity), the
exact content of CPython's float `//` for a positive denominator. -/
def floor (a : Q) : Int := Int.fdiv a.num a.den

/-- `a` raised to an integer power (the base must be nonzero when the
exponent is negative).  A normalized fraction stays normalized under
positive powers; negative powers go through renormalization. -/
def intPow (a : Q) (z : Int) : Q :=
  match z with
  | .ofNat k => ⟨a.num ^ k, a.den ^ k⟩
  | .negSucc k => mkRedI ((a.den ^ (k + 1) : Nat) : Int) (a.num ^ (k + 1))

/-- Whether the value is integral (Python: `float.is_integer`, equivalently
`y == int(y)`; for a normalized fraction this is a unit denominator). -/
def isInt (a : Q) : Bool := a.den = 1

/-- Decimal scaling `a * 10 ^ e`, used to give numeric literals with
exponent notation (`1e7`) their exact value. -/
def scale10 (a : Q) (e : Int) : Q := mul a (intPow (ofInt 10) e)

end Q

example : Q.add (Q.ofInt 2) (Q.ofInt 2) = Q.ofInt 4 := by decide
example : Q.div (Q.ofInt 9) (Q.ofInt 2) = ⟨9, 2⟩ := by decide
example : Q.floor (Q.div (Q.ofInt 10) (Q.ofInt 3)) = 3 := by decide
example : Q.intPow (Q.ofInt 2) (-2) = ⟨1, 4⟩ := by decide
example : Q.scale10 (Q.ofInt 1) 7 = Q.ofInt 10000000 := by decide

/-- Constant payload of a parsed `ast.Constant` node.  Python's parser
produces `True` / `False` as `bool` constants and `None` as a `NoneType`
constant; all numeric literals (int or float) are collapsed to their exact
rational value. -/
inductive PyConst where
  | numv (q : Q)
  | boolv (b : Bool)
  | nonev
deriving DecidableEq

/-- Unary operators admitted by `_ALLOWED_UNARYOPS` (src/app.py line 27). -/
inductive PyUnary where
  | uadd
  | usub
deriving DecidableEq

/-- Binary operators admitted by `_ALLOWED_BINOPS` (src/app.py lines 18-26). -/
inductive PyBinOp where
  | add
  | sub
  | mult
  | div
  | mod
  | floorDiv
  | pow
deriving DecidableEq

/-- The fragment of Python's `ast` expression nodes that the restricted
grammar can produce: constants, unary operations, binary operations, and
bare identifiers (`ast.Name`, reachable through inputs such as `nan`). -/
inductive PyExpr where
  | const (c : PyConst)
  | unaryOp (o : PyUnary) (operand : PyExpr)
  | binOp (left : PyExpr) (o : PyBinOp) (right : PyExpr)
  | name (s : String)
deriving DecidableEq

/-- Outcome of running `safe_eval`: either a classified `ValueError`
carrying its message (the only exception class the program treats as
recoverable), an uncaught `TypeError` (raised by `math.isfinite` when
Python's `**` has produced a complex number), or the model-only marker for
an irrational power value (see the module docstring). -/
inductive PyErr where
  | valueError (msg : String)
  | typeError (msg : String)
  | irrationalPow
deriving DecidableEq

instance {ε α : Type} [DecidableEq ε] [DecidableEq α] : DecidableEq (Except ε α) := fun x y =>
  match x, y with
  | .ok a, .ok b =>
      if h : a = b then .isTrue (h ▸ rfl) else .isFalse (fun hh => h (Except.ok.inj hh))
  | .error a, .error b =>
      if h : a = b then .isTrue (h ▸ rfl) else .isFalse (fun hh => h (Except.error.inj hh))
  | .ok _, .error _ => .isFalse (fun hh => Except.noConfusion hh)
  | .error _, .ok _ => .isFalse (fun hh => Except.noConfusion hh)

/-- Message of src/app.py line 62 (with `_MAX_ABS_EXPONENT = 10`). -/
def exponentTooLargeMsg : String := "Exponent too large (abs > 10)."

/-- Message of src/app.py line 64. -/
def baseTooLargeMsg : String := "Base too large for exponentiation."

/-- Message of src/app.py line 68. -/
def divisionByZeroMsg : String := "Division by zero."

/-- Message of src/app.py line 71. -/
def resultOutOfRangeMsg : String := "Result out of allowed range or not finite."

/-- Bound `_MAX_ABS_RESULT = 1e12` (src/app.py line 28). -/
def MAX_ABS_RESULT : Q := Q.ofInt (10 ^ 12)

/-- Bound `_MAX_ABS_BASE_FOR_POW = 1e6` (src/app.py line 29). -/
def MAX_ABS_BASE_FOR_POW : Q := Q.ofInt (10 ^ 6)

/-- Bound `_MAX_ABS_EXPONENT = 10` (src/app.py line 30). -/
def MAX_ABS_EXPONENT : Q := Q.ofInt 10

/-- Finiteness-and-magnitude gate of src/app.py lines 69-71:
`if math.isfinite(result) and abs(result) <= _MAX_ABS_RESULT: return
float(result)` else raise.  Rationals are always finite, so only the
magnitude test remains. -/
def checkResult (q : Q) : Except PyErr Q :=
  if q.abs ≤ MAX_ABS_RESULT then .ok q else .error (.valueError resultOutOfRangeMsg)

/-- Application of one allowed binary operator to two already-evaluated
operands, src/app.py lines 65-71.  `/`, `//`, `%` with a zero right
operand raise `ZeroDivisionError`, caught on line 67 and re-raised as the
classified "Division by zero." `ValueError`.  Python's float `**` raises
`ZeroDivisionError` for a zero base and a negative exponent, returns a
complex number for a negative base and non-integral exponent (which then
makes `math.isfinite` on line 69 raise an uncaught `TypeError`), and
otherwise returns a float that flows into `checkResult`.  Floor division
is `⌊x / y⌋` and `%` is `x - y * ⌊x / y⌋`, the exact-arithmetic content of
CPython's float `//` and `%` (the remainder takes the divisor's sign). -/
def applyBin : PyBinOp → Q → Q → Except PyErr Q
  | .add, x, y => checkResult (x.add y)
  | .sub, x, y => checkResult (x.sub y)
  | .mult, x, y => checkResult (x.mul y)
  | .div, x, y =>
      if y = 0 then .error (.valueError divisionByZeroMsg) else checkResult (x.div y)
  | .mod, x, y =>
      if y = 0 then .error (.valueError divisionByZeroMsg)
      else checkResult (x.sub (y.mul (Q.ofInt ((x.div y).floor))))
  | .floorDiv, x, y =>
      if y = 0 then .error (.valueError divisionByZeroMsg)
      else checkResult (Q.ofInt ((x.div y).floor))
  | .pow, x, y =>
      if x = 0 ∧ y < 0 then .error (.valueError divisionByZeroMsg)
      else if y.isInt then checkResult (x.intPow y.num)
      else if x < 0 then .error (.typeError "must be real number, not complex")
      else if x = 0 then checkResult 0
      else .error .irrationalPow

/-- The recursive tree-walking evaluator `_eval` of src/app.py lines 40-72
(the `ast.Expression` wrapper of line 41 is unwrapped by the parser below).
A numeric constant returns its float value (line 45); the booleans pass
the `isinstance(node.value, (int, float))` test of line 44 because `bool`
is a subtype of `int` in Python, so `True` evaluates to `1.0` and `False`
to `0.0`; `None` fails that test with "Only numeric constants allowed."
(line 46).  Unary `+`/`-` apply directly with no range check (lines
49-52).  A binary node evaluates both operands, applies the
power-magnitude guards of lines 60-64 (exponent first), then applies the
operator (lines 65-71).  A `Name` node falls through to line 72. -/
def evalNode : PyExpr → Except PyErr Q
  | .const c =>
      match c with
      | .numv q => .ok q
      | .boolv b => .ok (if b then 1 else 0)
      | .nonev => .error (.valueError "Only numeric constants allowed.")
  | .unaryOp o e =>
      match evalNode e with
      | .error err => .error err
      | .ok v => .ok (match o with | .uadd => v | .usub => v.neg)
  | .binOp l o r =>
      match evalNode l with
      | .error err => .error err
      | .ok x =>
        match evalNode r with
        | .error err => .error err
        | .ok y =>
          if o = .pow ∧ MAX_ABS_EXPONENT < y.abs then
            .error (.valueError exponentTooLargeMsg)
          else if o = .pow ∧ MAX_ABS_BASE_FOR_POW < x.abs then
            .error (.valueError baseTooLargeMsg)
          else applyBin o x y
  | .name _ => .error (.valueError "Unsupported element: Name")

example : evalNode (.binOp (.const (.numv 2)) .add (.const (.numv 2))) = .ok 4 := by decide
example : evalNode (.binOp (.const (.numv 5)) .pow (.const (.numv 2))) = .ok 25 := by decide
example : evalNode (.binOp (.const (.numv 0)) .pow (.unaryOp .usub (.const (.numv 1))))
    = .error (.valueError divisionByZeroMsg) := by decide
example : evalNode (.binOp (.const (.numv 2)) .pow (.const (.numv 20)))
    = .error (.valueError exponentTooLargeMsg) := by decide

/-- Tokens of the restricted arithmetic grammar (spec §4.1): numeric
literals, the keyword constants, bare identifiers, the seven binary
operator symbols, unary sign symbols, and parentheses. -/
inductive Tok where
  | numTok (q : Q)
  | trueTok
  | falseTok
  | noneTok
  | nameTok (s : String)
  | plusTok
  | minusTok
  | starTok
  | slashTok
  | percentTok
  | dslashTok
  | dstarTok
  | lparenTok
  | rparenTok
deriving DecidableEq

/-- Numeric value of a list of decimal digit characters. -/
def digitsVal (l : List Char) : Nat :=
  l.foldl (fun a c => 10 * a + (c.toNat - 48)) 0

/-- Modelled from the spec: scanning one NUMBER token ("decimal literal,
optional fractional part, optional exponent notation", spec §4.1), the
lexical job done by Python's tokenizer inside `ast.parse`, which is not
part of `src/`.  Accepts `123`, `1.5`, `.5`, `1.`, `1e7`, `2.5E-3`; the
value is the exact rational the literal denotes.  Returns the value and
the unconsumed characters, or fails on a malformed literal (`.`, `2e`). -/
def scanNumber (cs : List Char) : Except String (Q × List Char) :=
  let ip := cs.takeWhile Char.isDigit
  let rest1 := cs.dropWhile Char.isDigit
  let fp := if rest1.head? = some '.' then rest1.tail.takeWhile Char.isDigit else []
  let rest2 := if rest1.head? = some '.' then rest1.tail.dropWhile Char.isDigit else rest1
  if ip = [] ∧ fp = [] ∧ rest1.head? ≠ some '.' then .error "not a number" else
  if ip = [] ∧ fp = [] then .error "invalid decimal literal" else
  let mant : Q := Q.mkRed ((digitsVal ip : Int) * (10 ^ fp.length : Nat) + (digitsVal fp : Int))
      (10 ^ fp.length)
  match rest2 with
  | 'e' :: r3 | 'E' :: r3 =>
      let (sgn, r4) : Int × List Char :=
        match r3 with
        | '+' :: r4 => (1, r4)
        | '-' :: r4 => (-1, r4)
        | _ => (1, r3)
      let ed := r4.takeWhile Char.isDigit
      if ed = [] then .error "invalid decimal literal"
      else .ok (mant.scale10 (sgn * (digitsVal ed : Int)), r4.dropWhile Char.isDigit)
  | _ => .ok (mant, rest2)

/-- Characters that may continue an identifier. -/
def identChar (c : Char) : Bool := c.isAlpha ∨ c.isDigit ∨ c = '_'

/-- Modelled from the spec: the tokenizer of the restricted grammar (the
lexical layer of Python's `ast.parse`, external to `src/`).  Whitespace
between tokens is skipped; `**` and `//` are two-character operators; an
identifier is either one of Python's keyword constants or a bare name; any
other character is a lexical error ("unexpected character ... unsupported
operator symbol" fail with `SyntaxError`, spec §4.1). -/
def tokenizeAux : Nat → List Char → Except String (List Tok)
  | 0, _ => .error "tokenizer out of fuel"
  | _, [] => .ok []
  | n + 1, c :: cs =>
    if c = ' ' ∨ c = '\t' ∨ c = '\n' ∨ c = '\r' then tokenizeAux n cs
    else if c.isDigit ∨ c = '.' then
      match scanNumber (c :: cs) with
      | .error m => .error m
      | .ok (q, rest) =>
        match tokenizeAux n rest with
        | .error m => .error m
        | .ok ts => .ok (.numTok q :: ts)
    else if c.isAlpha ∨ c = '_' then
      let ident := (c :: cs).takeWhile identChar
      let rest := (c :: cs).dropWhile identChar
      let t : Tok :=
        if ident = "True".data then .trueTok
        else if ident = "False".data then .falseTok
        else if ident = "None".data then .noneTok
        else .nameTok (String.mk ident)
      match tokenizeAux n rest with
      | .error m => .error m
      | .ok ts => .ok (t :: ts)
    else
      let (t, rest) : Except String Tok × List Char :=
        match c, cs with
        | '*', '*' :: cs1 => (.ok .dstarTok, cs1)
        | '*', _ => (.ok .starTok, cs)
        | '/', '/' :: cs1 => (.ok .dslashTok, cs1)
        | '/', _ => (.ok .slashTok, cs)
        | '+', _ => (.ok .plusTok, cs)
        | '-', _ => (.ok .minusTok, cs)
        | '%', _ => (.ok .percentTok, cs)
        | '(', _ => (.ok .lparenTok, cs)
        | ')', _ => (.ok .rparenTok, cs)
        | _, _ => (.error "invalid character", cs)
      match t with
      | .error m => .error m
      | .ok t =>
        match tokenizeAux n rest with
        | .error m => .error m
        | .ok ts => .ok (t :: ts)

/-- Tokenize a whole string. -/
def tokenize (s : String) : Except String (List Tok) :=
  tokenizeAux (s.data.length + 1) s.data

example : tokenize "7 % 3" = .ok [.numTok 7, .percentTok, .numTok 3] := by decide
example : tokenize "1e7**2" = .ok [.numTok ⟨10000000, 1⟩, .dstarTok, .numTok 2] := by decide
example : tokenize ".5" = .ok [.numTok ⟨1, 2⟩] := by decide

/-!
Modelled from the spec: the recursive-descent parser for the grammar of
§4.1 (the parsing job `src/app.py` line 36 delegates to Python's
`ast.parse`, external to `src/`):
`expr := term (('+'|'-') term)*`, `term := factor (('*'|'/'|'%'|'//')
factor)*`, `factor := ('+'|'-') factor | power` (Python's unary sign is
itself recursive), `power := atom ('**' factor)?` (right-associative),
`atom := NUMBER | '(' expr ')'` plus Python's keyword constants and bare
names.  The first argument is recursion fuel; `parseString` below always
supplies enough for its token list.
-/
mutual

def parseExpr : Nat → List Tok → Except String (PyExpr × List Tok)
  | 0, _ => .error "expression too deeply nested"
  | n + 1, ts =>
    match parseTerm n ts with
    | .error m => .error m
    | .ok (e, ts1) => parseExprLoop n e ts1

def parseExprLoop : Nat → PyExpr → List Tok → Except String (PyExpr × List Tok)
  | 0, _, _ => .error "expression too deeply nested"
  | n + 1, acc, ts =>
    match ts with
    | .plusTok :: ts1 =>
      match parseTerm n ts1 with
      | .error m => .error m
      | .ok (t, ts2) => parseExprLoop n (.binOp acc .add t) ts2
    | .minusTok :: ts1 =>
      match parseTerm n ts1 with
      | .error m => .error m
      | .ok (t, ts2) => parseExprLoop n (.binOp acc .sub t) ts2
    | _ => .ok (acc, ts)

def parseTerm : Nat → List Tok → Except String (PyExpr × List Tok)
  | 0, _ => .error "expression too deeply nested"
  | n + 1, ts =>
    match parseFactor n ts with
    | .error m => .error m
    | .ok (e, ts1) => parseTermLoop n e ts1

def parseTermLoop : Nat → PyExpr → List Tok → Except String (PyExpr × List Tok)
  | 0, _, _ => .error "expression too deeply nested"
  | n + 1, acc, ts =>
    match ts with
    | .starTok :: ts1 =>
      match parseFactor n ts1 with
      | .error m => .error m
      | .ok (t, ts2) => parseTermLoop n (.binOp acc .mult t) ts2
    | .slashTok :: ts1 =>
      match parseFactor n ts1 with
      | .error m => .error m
      | .ok (t, ts2) => parseTermLoop n (.binOp acc .div t) ts2
    | .percentTok :: ts1 =>
      match parseFactor n ts1 with
      | .error m => .error m
      | .ok (t, ts2) => parseTermLoop n (.binOp acc .mod t) ts2
    | .dslashTok :: ts1 =>
      match parseFactor n ts1 with
      | .error m => .error m
      | .ok (t, ts2) => parseTermLoop n (.binOp acc .floorDiv t) ts2
    | _ => .ok (acc, ts)

def parseFactor : Nat → List Tok → Except String (PyExpr × List Tok)
  | 0, _ => .error "expression too deeply nested"
  | n + 1, ts =>
    match ts with
    | .plusTok :: ts1 =>
      match parseFactor n ts1 with
      | .error m => .error m
      | .ok (e, ts2) => .ok (.unaryOp .uadd e, ts2)
    | .minusTok :: ts1 =>
      match parseFactor n ts1 with
      | .error m => .error m
      | .ok (e, ts2) => .ok (.unaryOp .usub e, ts2)
    | _ => parsePower n ts

def parsePower : Nat → List Tok → Except String (PyExpr × List Tok)
  | 0, _ => .error "expression too deeply nested"
  | n + 1, ts =>
    match parseAtom n ts with
    | .error m => .error m
    | .ok (a, ts1) =>
      match ts1 with
      | .dstarTok :: ts2 =>
        match parseFactor n ts2 with
        | .error m => .error m
        | .ok (f, ts3) => .ok (.binOp a .pow f, ts3)
      | _ => .ok (a, ts1)

def parseAtom : Nat → List Tok → Except String (PyExpr × List Tok)
  | 0, _ => .error "expression too deeply nested"
  | n + 1, ts =>
    match ts with
    | .numTok q :: ts1 => .ok (.const (.numv q), ts1)
    | .trueTok :: ts1 => .ok (.const (.boolv true), ts1)
    | .falseTok :: ts1 => .ok (.const (.boolv false), ts1)
    | .noneTok :: ts1 => .ok (.const .nonev, ts1)
    | .nameTok s :: ts1 => .ok (.name s, ts1)
    | .lparenTok :: ts1 =>
      match parseExpr n ts1 with
      | .error m => .error m
      | .ok (e, ts2) =>
        match ts2 with
        | .rparenTok :: ts3 => .ok (e, ts3)
        | _ => .error "closing parenthesis expected"
    | _ => .error "invalid syntax"

end

/-- Modelled from the spec: `ast.parse(expr, mode="eval")` restricted to
the arithmetic grammar (src/app.py line 36; the parser itself is Python
library code, not in `src/`).  Input whose first character is whitespace
raises eval-mode `IndentationError`, a `SyntaxError` subclass; otherwise
the input is tokenized and parsed, and trailing tokens are a syntax
error.  The `ast.Expression` wrapper is elided: the returned node is the
expression body. -/
def parseString (s : String) : Except String PyExpr :=
  match s.data.head? with
  | some c =>
    if c = ' ' ∨ c = '\t' then .error "unexpected indent"
    else
      match tokenize s with
      | .error m => .error m
      | .ok ts =>
        match parseExpr (8 * ts.length + 8) ts with
        | .error m => .error m
        | .ok (e, []) => .ok e
        | .ok (_, _ :: _) => .error "invalid syntax (trailing input)"
  | Option.none => .error "invalid syntax"

/-- Whitespace characters removed by Python's `str.strip()` (the common
ASCII ones; the exotic Unicode space classes never occur in this
development). -/
def isSpaceChar (c : Char) : Bool := c = ' ' ∨ c = '\t' ∨ c = '\n' ∨ c = '\r'

/-- Python's `str.strip()`: remove leading and trailing whitespace. -/
def pyStrip (s : String) : String :=
  String.mk (((s.data.dropWhile isSpaceChar).reverse.dropWhile isSpaceChar).reverse)

example : pyStrip "  " = "" := by decide
example : pyStrip " 1/0 " = "1/0" := by decide

/-- The entry point `safe_eval` of src/app.py lines 32-74: reject input
that is empty after stripping (lines 33-34), parse (lines 35-38, any
`SyntaxError` re-raised as the classified "Syntax error: ..."
`ValueError`), then run the recursive evaluator on the tree. -/
def safe_eval (s : String) : Except PyErr Q :=
  if pyStrip s = "" then .error (.valueError "Empty expression.")
  else
    match parseString s with
    | .error m => .error (.valueError ("Syntax error: " ++ m))
    | .ok e => evalNode e

example : safe_eval "2+2" = .ok 4 := by decide
example : safe_eval "3*(4-1)/2" = .ok ⟨9, 2⟩ := by decide
example : safe_eval "5**2" = .ok 25 := by decide
example : safe_eval "10//3" = .ok 3 := by decide
example : safe_eval "7 % 3" = .ok 1 := by decide
example : safe_eval "1/0" = .error (.valueError divisionByZeroMsg) := by decide
example : safe_eval "5//0" = .error (.valueError divisionByZeroMsg) := by decide
example : safe_eval "5%0" = .error (.valueError divisionByZeroMsg) := by decide
example : safe_eval "2**20" = .error (.valueError exponentTooLargeMsg) := by decide
example : safe_eval "1e7**2" = .error (.valueError baseTooLargeMsg) := by decide
example : safe_eval "0**-1" = .error (.valueError divisionByZeroMsg) := by decide
example : safe_eval "True" = .ok 1 := by decide
example : safe_eval "False" = .ok 0 := by decide
example : safe_eval "True+1" = .ok 2 := by decide
example : safe_eval "" = .error (.valueError "Empty expression.") := by decide
example : safe_eval "   " = .error (.valueError "Empty expression.") := by decide

/-- Modelled from the spec: Python's built-in `float(str)` (the fallback
parser of src/app.py line 117, library code external to `src/`), for
finite decimal literals: optional surrounding whitespace, an optional
sign, then one decimal literal with optional fractional part and
exponent.  The `inf` / `nan` spellings and digit-grouping underscores are
outside the model (no claim touches them). -/
def pyFloat (s : String) : Option Q :=
  let cs := (pyStrip s).data
  let sgn : Int := match cs with | '-' :: _ => -1 | _ => 1
  let cs1 : List Char := match cs with | '+' :: r => r | '-' :: r => r | _ => cs
  match scanNumber cs1 with
  | .error _ => Option.none
  | .ok (q, rest) =>
      if rest = [] then some (if sgn < 0 then q.neg else q) else Option.none

example : pyFloat " 1.5" = some ⟨3, 2⟩ := by decide
example : pyFloat "-2e3" = some ⟨-2000, 1⟩ := by decide
example : pyFloat "3/4" = Option.none := by decide
example : pyFloat "abc" = Option.none := by decide

/-- Result of the two-stage answer-parsing block of src/app.py lines
112-120: `parsed v` means a value was obtained (either from `safe_eval`
or from the `float` fallback after a classified `ValueError`);
`unparsed` means both stages failed, which the code reports as the
feedback "Could not parse your answer as a number. Try `1.5` or `3/4`."
and an early return; `fault e` means `safe_eval` raised something other
than `ValueError`, which the `except ValueError` clause of line 115 does
not catch, so it escapes the callback. -/
inductive AnswerParse where
  | parsed (v : Q)
  | unparsed
  | fault (e : PyErr)
deriving DecidableEq

/-- The answer-parsing stage of `on_check_answer`, src/app.py lines
112-120. -/
def parseAnswer (ua : String) : AnswerParse :=
  match safe_eval ua with
  | .ok v => .parsed v
  | .error (.valueError _) =>
      match pyFloat ua with
      | some v => .parsed v
      | Option.none => .unparsed
  | .error e => .fault e

example : parseAnswer "3/4" = .parsed ⟨3, 4⟩ := by decide
example : parseAnswer " 1.5" = .parsed ⟨3, 2⟩ := by decide
example : parseAnswer "abc" = .unparsed := by decide

/-- Python's `round` on an exact rational value: round half to even
(banker's rounding), as `round(float)` does. -/
def pyRound (q : Q) : Int :=
  let f := q.floor
  let r := q.sub (Q.ofInt f)
  if r < ⟨1, 2⟩ then f
  else if (⟨1, 2⟩ : Q) < r then f + 1
  else if f % 2 = 0 then f else f + 1

example : pyRound ⟨9, 2⟩ = 4 := by decide
example : pyRound ⟨7, 2⟩ = 4 := by decide
example : pyRound ⟨39, 10⟩ = 4 := by decide

/-- Larger of two rationals. -/
def Q.qmax (a b : Q) : Q := if a ≤ b then b else a

/-- Python's `math.isclose(a, b, rel_tol, abs_tol)`:
`|a - b| <= max(rel_tol * max(|a|, |b|), abs_tol)` for finite arguments
(the documented closeness test, spec §4.3). -/
def isclose (a b rel_tol abs_tol : Q) : Bool :=
  decide ((a.sub b).abs ≤ Q.qmax (rel_tol.mul (Q.qmax a.abs b.abs)) abs_tol)

/-- Tolerance `1e-9` used for answer comparison (src/app.py lines 129, 134). -/
def TOL9 : Q := ⟨1, 10 ^ 9⟩

/-- Tolerance `1e-12` used for integer-likeness (src/app.py line 128). -/
def TOL12 : Q := ⟨1, 10 ^ 12⟩

/-- Outcome of the comparison tail of `on_check_answer`, src/app.py lines
127-137 — the comparator `compare` of spec §4.3.  `correct` renders as
"✅ Correct!" (line 130), `correctWithinTol` as "✅ Correct (within
tolerance)!" (line 135), `incorrectInt n` as "❌ Incorrect. The correct
answer is {n}." with the rounded integer (line 132), and `incorrectRaw q`
as the same message displaying the raw float (line 137). -/
inductive Feedback where
  | correct
  | correctWithinTol
  | incorrectInt (n : Int)
  | incorrectRaw (q : Q)
deriving DecidableEq

/-- The comparator of src/app.py lines 127-137: if the locked result is
within `1e-12` of its own rounding it is integer-like and the answer is
compared against the rounded integer with tolerance `1e-9`, displaying
the integer on mismatch; otherwise the answer is compared against the raw
value with tolerance `1e-9`, displaying the raw value on mismatch. -/
def compareAnswer (correct user_val : Q) : Feedback :=
  if isclose correct (Q.ofInt (pyRound correct)) TOL12 TOL12 then
    if isclose user_val (Q.ofInt (pyRound correct)) TOL9 TOL9 then .correct
    else .incorrectInt (pyRound correct)
  else
    if isclose user_val correct TOL9 TOL9 then .correctWithinTol
    else .incorrectRaw correct

example : compareAnswer 4 4 = .correct := by decide
example : compareAnswer 4 ⟨400000001, 100000000⟩ = .incorrectInt 4 := by decide
example : compareAnswer 4 ⟨4000000001, 1000000000⟩ = .correct := by decide
example : compareAnswer ⟨9, 2⟩ 4 = .incorrectRaw ⟨9, 2⟩ := by decide
example : compareAnswer 4 ⟨39, 10⟩ = .incorrectInt 4 := by decide

/-- The Streamlit session state the callbacks read and write (src/app.py
lines 77-86): the locked equation's evaluated result and text, the
feedback line, and the two text-input widgets. -/
structure AppState where
  correct_answer : Option Q
  eq_text : String
  feedback : String
  eq_input : String
  user_answer_input : String
deriving DecidableEq

/-- The `on_set_equation` callback, src/app.py lines 89-105: strip the
equation input; clear the feedback; complain if empty; on a classified
evaluation error set `correct_answer` to `None`, clear `eq_text` and
report "Invalid equation: ..." (lines 97-101); on success lock the
stripped expression and its result and clear the answer box (lines
102-105).  An exception other than `ValueError` is not caught and escapes
the callback, leaving the state as of the raise (feedback just cleared). -/
def on_set_equation (st : AppState) : AppState :=
  let expr := pyStrip st.eq_input
  let st1 := { st with feedback := "" }
  if expr = "" then { st1 with feedback := "Please enter an equation first." }
  else
    match safe_eval expr with
    | .error (.valueError m) =>
        { st1 with correct_answer := Option.none, eq_text := "",
                   feedback := "Invalid equation: " ++ m }
    | .error _ => st1
    | .ok r =>
        { st1 with correct_answer := some r, eq_text := expr, user_answer_input := "",
                   feedback := "Equation accepted — now enter your answer." }

/-- The expression string built by the `/` branch of
`generate_easy_problem`, src/app.py lines 144-147:
`dividend = divisor * quotient`, rendered as `f"{dividend}/{divisor}"`. -/
def division_problem (divisor quotient : Nat) : String :=
  toString (divisor * quotient) ++ "/" ++ toString divisor

example : division_problem 12 12 = "144/12" := by decide
example : safe_eval (division_problem 12 7) = .ok 7 := by decide

/-- Sample answer input with leading whitespace (used as a concrete
instance below): fails `safe_eval` but parses as a plain float. -/
def wsAnswerSample : String := " 1.5"

/-- Sample answer input that fails both parsing stages. -/
def badAnswerSample : String := "abc"

/-- Classified message `safe_eval` produces for `wsAnswerSample`. -/
def wsAnswerMsg : String := "Syntax error: unexpected indent"

/-- Classified message `safe_eval` produces for `badAnswerSample`. -/
def badAnswerMsg : String := "Unsupported element: Name"

/-! ### Helper lemmas shared by the claim theorems -/

theorem checkResult_ok {q v : Q} (h : checkResult q = .ok v) :
    v.abs ≤ MAX_ABS_RESULT := by
  unfold checkResult at h
  split at h
  · injection h with h'; subst h'; assumption
  · exact Except.noConfusion h

theorem applyBin_ok_le {o : PyBinOp} {x y v : Q} (h : applyBin o x y = .ok v) :
    v.abs ≤ MAX_ABS_RESULT := by
  cases o <;> simp only [applyBin] at h <;> (repeat' split at h) <;>
    first
      | exact checkResult_ok h
      | exact Except.noConfusion h

theorem checkResult_valueError_msg {q : Q} {m : String}
    (h : checkResult q = .error (.valueError m)) : m = resultOutOfRangeMsg := by
  unfold checkResult at h
  split at h
  · exact Except.noConfusion h
  · injection h with h1; injection h1 with h2; exact h2.symm

theorem checkResult_ne_divzero (q : Q) :
    checkResult q ≠ .error (.valueError divisionByZeroMsg) := by
  intro h
  exact absurd (checkResult_valueError_msg h) (by decide)

theorem applyBin_valueError_msg {o : PyBinOp} {x y : Q} {m : String}
    (h : applyBin o x y = .error (.valueError m)) :
    m = divisionByZeroMsg ∨ m = resultOutOfRangeMsg := by
  cases o <;> simp only [applyBin] at h <;> (repeat' split at h) <;>
    first
      | exact Or.inr (checkResult_valueError_msg h)
      | (injection h with h1; injection h1 with h2; exact Or.inl h2.symm)
      | exact Except.noConfusion h
      | (injection h with h1; exact PyErr.noConfusion h1)

theorem applyBin_ne_expMsg (o : PyBinOp) (x y : Q) :
    applyBin o x y ≠ .error (.valueError exponentTooLargeMsg) := by
  intro h
  rcases applyBin_valueError_msg h with h1 | h1 <;> exact absurd h1 (by decide)

theorem applyBin_ne_baseMsg (o : PyBinOp) (x y : Q) :
    applyBin o x y ≠ .error (.valueError baseTooLargeMsg) := by
  intro h
  rcases applyBin_valueError_msg h with h1 | h1 <;> exact absurd h1 (by decide)

theorem applyBin_divzero_iff (o : PyBinOp) (x y : Q) :
    applyBin o x y = .error (.valueError divisionByZeroMsg) ↔
      ((o = .div ∨ o = .floorDiv ∨ o = .mod) ∧ y = 0) ∨ (o = .pow ∧ x = 0 ∧ y < 0) := by
  cases o <;> simp only [applyBin] <;> (repeat' split) <;>
    simp_all [checkResult_ne_divzero]

/-! ### Claim theorems -/

/-- C1, counterexample to the claim as stated: `safe_eval "1e13"` returns
the literal's value `10^13 > 10^12` as a success — the
finiteness/magnitude gate of lines 69-71 runs only for binary-operation
nodes, and a bare literal bypasses it.  (`1e13` is exactly representable
in float64, so the float program returns exactly this value too.) -/
theorem C1_counterexample :
    safe_eval "1e13" = .ok ⟨10 ^ 13, 1⟩ ∧
      ¬ ((⟨10 ^ 13, 1⟩ : Q).abs ≤ MAX_ABS_RESULT) := by
  constructor
  · decide
  · decide

/-- C1 (amended): every success value produced at a binary-operation node
— in particular every `safe_eval` success whose root is a binary
operation — is a finite value of magnitude at most `1e12`; bare literals
and unary-operator nodes are not range-checked and can return values
beyond the bound. -/
theorem C1_theorem (l : PyExpr) (o : PyBinOp) (r : PyExpr) (v : Q)
    (h : evalNode (.binOp l o r) = .ok v) : v.abs ≤ MAX_ABS_RESULT := by
  simp only [evalNode] at h
  repeat' split at h
  all_goals
    first
      | exact applyBin_ok_le h
      | exact Except.noConfusion h

/-- C1 witness: the binary-operation node for `2+2` evaluates successfully
and its value obeys the bound. -/
theorem C1_witness :
    evalNode (.binOp (.const (.numv 2)) .add (.const (.numv 2))) = .ok 4 ∧
      (4 : Q).abs ≤ MAX_ABS_RESULT :=
  ⟨by decide, C1_theorem (.const (.numv 2)) .add (.const (.numv 2)) 4 (by decide)⟩

/-- C2: evaluating `(-8)**0.5` reaches Python's float power with a
negative base and fractional exponent, which returns a complex number;
`math.isfinite` on line 69 then raises a `TypeError`, which neither the
`except ZeroDivisionError` of line 67 nor any caller's `except ValueError`
catches — an uncaught fault escapes `safe_eval`, contradicting the spec's
"never an uncaught fault". -/
theorem C2_theorem :
    safe_eval "(-8)**0.5" = .error (.typeError "must be real number, not complex") := by
  decide

/-- C3, counterexample to the claim as stated: `compare(4.0, 4.00000001)`
is NOT accepted within tolerance — the difference `1e-8` exceeds
`max(1e-9 * max(|a|,|b|), 1e-9) ≈ 4e-9` — so the code reports Incorrect
(displaying the rounded expected value 4). -/
theorem C3_counterexample :
    compareAnswer 4 ⟨400000001, 100000000⟩ ≠ .correct ∧
      compareAnswer 4 ⟨400000001, 100000000⟩ ≠ .correctWithinTol := by
  decide

/-- C3 (amended): `compare(4.0, 4.0)` is Correct; `compare(4.0,
4.00000001)` is Incorrect displaying the integer-snapped expected value 4
(the offset `1e-8` exceeds the `1e-9`-based tolerance); an offset actually
within tolerance, `compare(4.0, 4.000000001)`, is Correct; `compare(4.5,
4.0)` is Incorrect displaying the raw expected value 4.5; `compare(4.0,
3.9)` is Incorrect displaying the integer-snapped expected value 4. -/
theorem C3_theorem :
    compareAnswer 4 4 = .correct ∧
    compareAnswer 4 ⟨400000001, 100000000⟩ = .incorrectInt 4 ∧
    compareAnswer 4 ⟨4000000001, 1000000000⟩ = .correct ∧
    compareAnswer ⟨9, 2⟩ 4 = .incorrectRaw ⟨9, 2⟩ ∧
    compareAnswer 4 ⟨39, 10⟩ = .incorrectInt 4 := by
  decide

/-- C4: at a power node whose operands evaluate successfully, evaluation
fails with `ExponentTooLarge` exactly when the exponent's magnitude
exceeds 10, and otherwise fails with `BaseTooLarge` exactly when the
base's magnitude exceeds `1e6` (the exponent check taking precedence);
concretely, `safe_eval "2**20"` fails with `ExponentTooLarge` and
`safe_eval "1e7**2"` fails with `BaseTooLarge`. -/
theorem C4_theorem :
    (∀ (l r : PyExpr) (x y : Q), evalNode l = .ok x → evalNode r = .ok y →
      ((evalNode (.binOp l .pow r) = .error (.valueError exponentTooLargeMsg) ↔
          MAX_ABS_EXPONENT < y.abs) ∧
        (¬ MAX_ABS_EXPONENT < y.abs →
          (evalNode (.binOp l .pow r) = .error (.valueError baseTooLargeMsg) ↔
            MAX_ABS_BASE_FOR_POW < x.abs)))) ∧
    safe_eval "2**20" = .error (.valueError exponentTooLargeMsg) ∧
    safe_eval "1e7**2" = .error (.valueError baseTooLargeMsg) := by
  refine ⟨fun l r x y hl hr => ⟨?_, fun hE => ?_⟩, by decide, by decide⟩
  · by_cases hE : MAX_ABS_EXPONENT < y.abs
    · simp [evalNode, hl, hr, hE]
    · simp only [evalNode, hl, hr]
      simp [hE]
      split
      · simp [exponentTooLargeMsg, baseTooLargeMsg]
      · exact applyBin_ne_expMsg _ _ _
  · simp only [evalNode, hl, hr]
    simp [hE]
    by_cases hB : MAX_ABS_BASE_FOR_POW < x.abs
    · simp [hB]
    · simp [hB]
      exact applyBin_ne_baseMsg _ _ _

/-- C4 witness: instantiating the node-level equivalence at the power node
for `2**20` (operands 2 and 20) yields the `ExponentTooLarge` failure. -/
theorem C4_witness :
    evalNode (.binOp (.const (.numv 2)) .pow (.const (.numv 20))) =
      .error (.valueError exponentTooLargeMsg) :=
  ((C4_theorem.1 (.const (.numv 2)) (.const (.numv 20)) 2 20
      (by decide) (by decide)).1).mpr (by decide)

/-- C5, counterexample to the claim as stated: `0**-1` is a power
expression, not a `/`, `//` or `%` one, yet `safe_eval "0**-1"` fails with
`DivisionByZero` (Python's float power raises `ZeroDivisionError` for a
zero base and negative exponent, and line 67 converts that to the
"Division by zero." `ValueError`). -/
theorem C5_counterexample :
    parseString "0**-1" =
      .ok (.binOp (.const (.numv 0)) .pow (.unaryOp .usub (.const (.numv 1)))) ∧
    safe_eval "0**-1" = .error (.valueError divisionByZeroMsg) := by
  constructor
  · decide
  · decide

/-- C5 (amended): at a binary node whose operands evaluate successfully,
evaluation fails with `DivisionByZero` exactly when the operator is `/`,
`//` or `%` with a zero right operand, or the operator is `**` with a
zero base and a negative exponent of magnitude at most 10; concretely
`safe_eval` on "1/0", "5//0", "5%0" and "0**-1" all fail with
`DivisionByZero`. -/
theorem C5_theorem :
    (∀ (l r : PyExpr) (o : PyBinOp) (x y : Q),
      evalNode l = .ok x → evalNode r = .ok y →
      (evalNode (.binOp l o r) = .error (.valueError divisionByZeroMsg) ↔
        ((o = .div ∨ o = .floorDiv ∨ o = .mod) ∧ y = 0) ∨
          (o = .pow ∧ ¬ MAX_ABS_EXPONENT < y.abs ∧ x = 0 ∧ y < 0))) ∧
    safe_eval "1/0" = .error (.valueError divisionByZeroMsg) ∧
    safe_eval "5//0" = .error (.valueError divisionByZeroMsg) ∧
    safe_eval "5%0" = .error (.valueError divisionByZeroMsg) ∧
    safe_eval "0**-1" = .error (.valueError divisionByZeroMsg) := by
  refine ⟨fun l r o x y hl hr => ?_, by decide, by decide, by decide, by decide⟩
  by_cases h1 : o = .pow ∧ MAX_ABS_EXPONENT < y.abs
  · obtain ⟨ho, hy⟩ := h1
    subst ho
    simp [evalNode, hl, hr, hy, exponentTooLargeMsg, divisionByZeroMsg]
  · simp only [evalNode, hl, hr]
    simp [h1]
    by_cases h2 : o = .pow ∧ MAX_ABS_BASE_FOR_POW < x.abs
    · obtain ⟨ho, hx⟩ := h2
      subst ho
      simp [hx, baseTooLargeMsg, divisionByZeroMsg]
      intro _ hx0
      rw [hx0] at hx
      exact absurd hx (by decide)
    · simp [h2]
      rw [applyBin_divzero_iff]
      constructor
      · rintro (⟨hd, hy0⟩ | ⟨ho, hx0, hyneg⟩)
        · exact Or.inl ⟨hd, hy0⟩
        · exact Or.inr ⟨ho, fun hcon => h1 ⟨ho, hcon⟩, hx0, hyneg⟩
      · rintro (⟨hd, hy0⟩ | ⟨ho, _, hx0, hyneg⟩)
        · exact Or.inl ⟨hd, hy0⟩
        · exact Or.inr ⟨ho, hx0, hyneg⟩

/-- C5 witness: instantiating the node-level equivalence at the division
node for `1/0` (operands 1 and 0) yields the `DivisionByZero` failure. -/
theorem C5_witness :
    evalNode (.binOp (.const (.numv 1)) .div (.const (.numv 0))) =
      .error (.valueError divisionByZeroMsg) :=
  (C5_theorem.1 (.const (.numv 1)) (.const (.numv 0)) .div 1 0
      (by decide) (by decide)).mpr (Or.inl ⟨Or.inl rfl, rfl⟩)

/-- C6: the round-trip reference results — `safe_eval "2+2" = 4.0`,
`safe_eval "3*(4-1)/2" = 4.5`, `safe_eval "5**2" = 25.0`,
`safe_eval "10//3" = 3.0`, `safe_eval "7 % 3" = 1.0` — all hold exactly. -/
theorem C6_theorem :
    safe_eval "2+2" = .ok 4 ∧
    safe_eval "3*(4-1)/2" = .ok ⟨9, 2⟩ ∧
    safe_eval "5**2" = .ok 25 ∧
    safe_eval "10//3" = .ok 3 ∧
    safe_eval "7 % 3" = .ok 1 := by
  decide

/-- C7: when `safe_eval` on a typed answer fails with a classified
`ValueError`, the answer-checking path of lines 113-120 falls back to a
plain `float` literal parse — the comparison proceeds on the fallback
value when that parse succeeds, and only when both stages fail does the
code report "Could not parse your answer as a number. Try `1.5` or
`3/4`." (the `unparsed` outcome). -/
theorem C7_theorem (ua : String) (m : String)
    (h : safe_eval ua = .error (.valueError m)) :
    (∀ v : Q, pyFloat ua = some v → parseAnswer ua = .parsed v) ∧
    (pyFloat ua = Option.none → parseAnswer ua = .unparsed) := by
  constructor
  · intro v hv
    unfold parseAnswer
    rw [h, hv]
  · intro hv
    unfold parseAnswer
    rw [h, hv]

/-- C7 witness: `" 1.5"` fails `safe_eval` (leading whitespace is a
syntax error in eval mode) but parses as the float `1.5`, so the answer
path proceeds with `1.5`; `"abc"` fails both stages and is reported
unparseable. -/
theorem C7_witness :
    parseAnswer wsAnswerSample = .parsed ⟨3, 2⟩ ∧ parseAnswer badAnswerSample = .unparsed :=
  ⟨(C7_theorem wsAnswerSample wsAnswerMsg (by decide)).1 ⟨3, 2⟩ (by decide),
   (C7_theorem badAnswerSample badAnswerMsg (by decide)).2 (by decide)⟩

/-- C8, counterexample to the claim as stated: starting from a state with
the locked equation `2+2` (result 4), a Set-equation call whose input
`1/0` fails `safe_eval` does NOT leave the locked text and result
unchanged — lines 98-99 clear them. -/
theorem C8_counterexample :
    on_set_equation ⟨some 4, "2+2", "", "1/0", ""⟩ =
      ⟨Option.none, "", "Invalid equation: Division by zero.", "1/0", ""⟩ := by
  decide

/-- C8 (amended): for every prior state, a Set-equation call whose
(nonempty after stripping) expression fails `safe_eval` with a classified
error clears the lock: the stored result becomes `None`, the stored
expression text becomes empty, and the feedback reports "Invalid
equation: ...".  The previous lock is not preserved; it is held only
until replaced by a successful set or cleared by a failed one (an empty
input leaves the state untouched apart from the feedback). -/
theorem C8_theorem (st : AppState) (m : String)
    (hne : ¬ pyStrip st.eq_input = "")
    (h : safe_eval (pyStrip st.eq_input) = .error (.valueError m)) :
    (on_set_equation st).correct_answer = Option.none ∧
    (on_set_equation st).eq_text = "" ∧
    (on_set_equation st).feedback = "Invalid equation: " ++ m := by
  unfold on_set_equation
  simp only [hne, if_false, h]
  exact ⟨trivial, trivial, trivial⟩

/-- C8 witness: the amended statement applied to the locked state `2+2`
with failing input `1/0`. -/
theorem C8_witness :
    (on_set_equation ⟨some 4, "2+2", "", "1/0", ""⟩).correct_answer = Option.none ∧
    (on_set_equation ⟨some 4, "2+2", "", "1/0", ""⟩).eq_text = "" ∧
    (on_set_equation ⟨some 4, "2+2", "", "1/0", ""⟩).feedback =
      "Invalid equation: " ++ divisionByZeroMsg :=
  C8_theorem ⟨some 4, "2+2", "", "1/0", ""⟩ divisionByZeroMsg (by decide) (by decide)

set_option maxRecDepth 8000 in
set_option maxHeartbeats 4000000 in
/-- C9: every division problem the generator can emit evaluates exactly —
for all divisor and quotient in `[1, 12]`, `safe_eval` of
`"{divisor*quotient}/{divisor}"` succeeds and returns exactly the integer
quotient, with no rounding error. -/
theorem C9_theorem : ∀ d ∈ Finset.Icc 1 12, ∀ q ∈ Finset.Icc 1 12,
    safe_eval (division_problem d q) = .ok (Q.ofInt q) := by
  decide

/-- C9 witness: the largest generable problem, `144/12`, evaluates to
exactly 12. -/
theorem C9_witness : safe_eval (division_problem 12 12) = .ok (Q.ofInt 12) :=
  C9_theorem 12 (by decide) 12 (by decide)

/-- C10: the boolean literals are accepted as numeric constants —
`safe_eval "True" = 1.0`, `safe_eval "False" = 0.0`, and they may appear
as operands (`safe_eval "True+1" = 2.0`) — because the
`isinstance(node.value, (int, float))` check of line 44 admits `bool`, a
subtype of `int`. -/
theorem C10_theorem :
    safe_eval "True" = .ok 1 ∧
    safe_eval "False" = .ok 0 ∧
    safe_eval "True+1" = .ok 2 := by
  decide
